import Mathlib

/-!
# Verification of the MV-LV network Topology Compiler (`backend.py`)

Shallow embedding of the core of `DSSDriver` from `src/backend.py`:
the phase-code translation table, the transformer topology selection and
emission (`mv_txs`, `lv_tx`), the line-code and MV-line emitters
(`line_codes`, `connections`) with their Geo-Layer annotations, the
load-profile sampler (`lv_load_mod`), and the orchestrator
(`build_network`).

Numeric table values are modelled as rationals (`ℚ`); the textual OpenDSS
commands are modelled as structured values carrying exactly the fields the
source writes into each command string.  Python run-time failures
(`KeyError` from the phase-code dictionary, `IndexError` from an empty
lookup result, `TypeError` from a call with a missing required argument)
are modelled with `Option`/error results.
-/

/-- Python run-time errors that the embedded code can raise. -/
inductive RunErr where
  | typeError
  | keyError
  | indexError
  | outOfDraws
deriving DecidableEq, Repr

/-! ## Structured OpenDSS commands -/

/-- The `New Transformer.… ` command: the fields written by the various
transformer emitters in `backend.py` (taps are absent in some variants). -/
structure TransformerCmd where
  name : String
  phases : Nat
  windings : Nat
  buses : List String
  conns : List String
  kVs : List ℚ
  kVAs : List ℚ
  xhl : ℚ
  noloadloss : ℚ
  loadloss : ℚ
  numtaps : Option Int
  tap : Option ℚ
  maxtap : Option ℚ
  mintap : Option ℚ
deriving DecidableEq, Repr

/-- The `New Reactor.…` command (the regulator-assembly jumpers). -/
structure ReactorCmd where
  name : String
  bus1 : String
  bus2 : String
  phases : Nat
  X : ℚ
  R : ℚ
deriving DecidableEq, Repr

/-- The `new regcontrol.…` command.  `ptratio_val` models the `ptratio=` field. -/
structure RegControlCmd where
  name : String
  transformer : String
  winding : Nat
  bus : String
  vreg : ℚ
  band : ℚ
  ptratio_val : ℚ
  maxtapchange : Nat
deriving DecidableEq, Repr

/-- The `new linecode.…` command emitted by `DSSDriver.line_codes`. -/
structure LinecodeCmd where
  name : String
  nphases : Nat
  r1 : ℚ
  x1 : ℚ
  b1 : ℚ
  r0 : ℚ
  b0 : ℚ
  x0 : ℚ
  units : String
  normamp : ℚ
deriving DecidableEq, Repr

/-- The `new line.…` command (MV lines from `connections`, LV lines from `lv_nets`). -/
structure LineCmd where
  name : String
  bus1 : String
  bus2 : String
  phases : Nat
  length : ℚ
  units : String
  linecode : String
deriving DecidableEq, Repr

/-- The `new capacitor.…` command emitted by `DSSDriver.capacitors`. -/
structure CapacitorCmd where
  name : String
  bus1 : String
  phases : Nat
  kvar : ℚ
  kV : ℚ
deriving DecidableEq, Repr

/-- The `new load.…` command emitted by `DSSDriver.lv_load_mod`. -/
structure LoadCmd where
  name : String
  phases : Nat
  bus1 : String
  kw : ℚ
  conn : String
  kv : ℚ
  pf : ℚ
  model : Nat
  vminpu : ℚ
  vmaxpu : ℚ
  status : String
deriving DecidableEq, Repr

/-- The `New Loadshape.…` command emitted by `DSSDriver.lv_load_mod`. -/
structure LoadshapeCmd where
  name : String
  npts : Nat
  minterval : Nat
  pmult : List ℚ
deriving DecidableEq, Repr

/-- One submission to the simulation engine's command interface.
`directive` is a non-component textual command (e.g. `clear`, `calcv`);
`setDaily loadName shapeName` models the `SetActiveElement` /
`Properties('daily').Val = …` association in `lv_load_mod`. -/
inductive DSSCmd where
  | directive : String → DSSCmd
  | transformer : TransformerCmd → DSSCmd
  | reactor : ReactorCmd → DSSCmd
  | regcontrol : RegControlCmd → DSSCmd
  | linecode : LinecodeCmd → DSSCmd
  | line : LineCmd → DSSCmd
  | capacitor : CapacitorCmd → DSSCmd
  | load : LoadCmd → DSSCmd
  | loadshape : LoadshapeCmd → DSSCmd
  | setDaily : String → String → DSSCmd
deriving DecidableEq, Repr

/-! ## Record (table-row) types, one per source table used by the compiler -/

/-- A row of the `linecodes` table. -/
structure LineCodeRecord where
  Linecode_ID : String
  Phases : Nat
  r1 : ℚ
  x1 : ℚ
  b1 : ℚ
  r0 : ℚ
  b0 : ℚ
  x0 : ℚ
  Units : String
  Ampacity1 : ℚ
  Ampacity2 : ℚ
deriving DecidableEq, Repr

/-- A row of the `lines` (MV lines) table. -/
structure LineRecord where
  Element_Name : String
  Line_Number : Nat
  Start_Node : String
  End_Node : String
  Start_Node_Phase : String
  End_Node_Phase : String
  Phases : Nat
  Length : ℚ
  Units : String
  Linecode : String
deriving DecidableEq, Repr

/-- A row of the `mv_net_txs` table (primary MV transformers). -/
structure MvNetTxRecord where
  Substation_ID : String
  Bus1 : String
  Bus2 : String
  Connection_Primary : String
  Connection_Secondary : String
  kvs_primary : ℚ
  kvs_secondary : ℚ
  kvas_primary : ℚ
  kvas_secondary : ℚ
  loadloss : ℚ
  noloadloss : ℚ
  xhl : ℚ
deriving DecidableEq, Repr

/-- A row of the `mvtx` table (MV/MV transformers and regulators),
consumed by `DSSDriver.mv_txs`. -/
structure MvTxRecord where
  Substation_ID : String
  Bus1 : String
  Bus2 : String
  Conn_Type : String
  kvs_primary : ℚ
  kvs_secondary : ℚ
  kvas_primary : ℚ
  kvas_secondary : ℚ
  xhl : ℚ
  noloadloss : ℚ
  loadloss : ℚ
  wdg1_numtaps : Int
deriving DecidableEq, Repr

/-- A row of the `lvtx` table (MV/LV transformers), consumed by `DSSDriver.lv_tx`. -/
structure LvTxRecord where
  Substation_ID : String
  Bus1 : String
  Conn_Type : String
  Connection_Primary : String
  Connection_Secondary : String
  kvs_primary : ℚ
  kvs_secondary : ℚ
  kvas_primary : ℚ
  kvas_secondary : ℚ
  xhl : ℚ
  noloadloss : ℚ
  loadloss : ℚ
  wdg1_tap : ℚ
deriving DecidableEq, Repr

/-- A row of the `mvcaps` table. -/
structure CapRecord where
  Element_ID : String
  Bus1 : String
  phases : Nat
  kvar : ℚ
  kvs : ℚ
deriving DecidableEq, Repr

/-- A row of the `lv_lines` table. -/
structure LvLineRecord where
  line_name : String
  bus1 : String
  bus2 : String
  phases : Nat
  length : ℚ
  units : String
  linecode : String
deriving DecidableEq, Repr

/-- A row of the `lv_loads` table.  The column named `model` in the table
feeds the `status=` field of the emitted load command. -/
structure LoadRecord where
  load_name : String
  phases : Nat
  bus1 : String
  kv : ℚ
  pf : ℚ
  model : String
  tx_cap : ℚ
deriving DecidableEq, Repr

/-- A Geo-Layer (`gis_data["MV_lines"]`) entry: the `DSSNAME` and
`Ampacity` annotation columns written by `DSSDriver.connections`. -/
structure GisEntry where
  dssname : Option String
  ampacity : Option ℚ
deriving DecidableEq, Repr

/-! ## `DSSDriver.line_codes` -/

/-- The `new linecode.…` command for one `linecodes` row:
`normamp` is `min(row['Ampacity1'], row['Ampacity2'])` as in the source. -/
def line_code_cmd (row : LineCodeRecord) : LinecodeCmd :=
  { name := "lc_" ++ row.Linecode_ID
    nphases := row.Phases
    r1 := row.r1, x1 := row.x1, b1 := row.b1
    r0 := row.r0, b0 := row.b0, x0 := row.x0
    units := row.Units
    normamp := min row.Ampacity1 row.Ampacity2 }

/-- The `DSSDriver.line_codes`: one linecode command per table row. -/
def line_codes (rows : List LineCodeRecord) : List DSSCmd :=
  rows.map (fun row => DSSCmd.linecode (line_code_cmd row))

/-- Witness for `linecode_normamp_min` at a concrete one-row table. -/
def lc_witness_row : LineCodeRecord :=
  { Linecode_ID := "7-3ph", Phases := 3
    r1 := 1/10, x1 := 2/10, b1 := 3/10, r0 := 4/10, b0 := 5/10, x0 := 6/10
    Units := "km", Ampacity1 := 400, Ampacity2 := 300 }

/-! ## The phase-code translation table (`char_to_num` in `mv_txs` / `lv_tx`)

The source builds, once per call, a dictionary over
`itertools.permutations(['R','W','B'])`, `permutations(['R','B','W'], 2)`
and `permutations(['R','B','W'], 1)`, mapping each permutation string to
its dot-separated digits under `{'R': 1, 'W': 2, 'B': 3}`; looking up any
other string raises `KeyError`, modelled by `none`. -/

/-- All ways to pick one element out of a list together with the remainder,
in list order (the selection order of `itertools.permutations`). -/
def picks : List Char → List (Char × List Char)
  | [] => []
  | x :: xs => (x, xs) :: (picks xs).map (fun p => (p.1, x :: p.2))

/-- The `itertools.permutations(l, k)`: all `k`-permutations of distinct
positions of `l`, in the order itertools yields them. -/
def permsK : Nat → List Char → List (List Char)
  | 0, _ => [[]]
  | Nat.succ k, l => (picks l).flatMap (fun p => (permsK k p.2).map (fun q => p.1 :: q))

def three_ph_combi : List String := (permsK 3 ['R', 'W', 'B']).map String.mk

def two_ph_combi : List String := (permsK 2 ['R', 'B', 'W']).map String.mk

def one_ph_combi : List String := (permsK 1 ['R', 'B', 'W']).map String.mk

/-- The key set of the `char_to_num` dictionary. -/
def charToNumKeys : List String := three_ph_combi ++ two_ph_combi ++ one_ph_combi

/-- The digit dictionary `{'R': 1, 'W': 2, 'B': 3}`; any other character
raises `KeyError` (`none`). -/
def phaseNum (c : Char) : Option Nat :=
  if c = 'R' then some 1 else if c = 'W' then some 2 else if c = 'B' then some 3 else none

/-- The generator `(str({'R':1,'W':2,'B':3}[char]) for char in key)`:
digit of every character, failing if any character is unknown. -/
def phaseDigits : List Char → Option (List Nat)
  | [] => some []
  | c :: cs =>
    match phaseNum c, phaseDigits cs with
    | some d, some ds => some (d :: ds)
    | _, _ => none

/-- The `'.'.join(...)` of the digits of a key string. -/
def charToNumVal (s : String) : Option String :=
  (phaseDigits s.data).map (fun ds => String.intercalate "." (ds.map toString))

/-- Dictionary lookup `char_to_num[s]`: defined exactly on the permutation
keys; `none` models the `KeyError` on any other string. -/
def char_to_num (s : String) : Option String :=
  if s ∈ charToNumKeys then charToNumVal s else none

/-- The digit map as worded by the specification: R↦1, W↦2, B↦3. -/
def specDigit (c : Char) : Nat := if c = 'R' then 1 else if c = 'W' then 2 else 3

/-! ## `DSSDriver.mv_txs`: MV/MV transformer vs. regulator assembly

For each `mvtx` row the source compares `kva1 = row["kvs_primary"]` with
`kva2 = row["kvs_secondary"]` (the rated *voltages*, despite the variable
names).  If they differ it emits one three-winding split-phase Delta/Wye/Wye
transformer (using `char_to_num[row['Conn_Type']]` for the primary bus
suffix); if they are equal it emits the regulator assembly: a
`set maxcontroliter=100` directive, two jumper reactors per phase, one
two-winding single-phase transformer per phase and one regcontrol per
phase. -/

/-- The `kv = 12.7` in `mv_txs`. -/
def mv_tx_reg_kv : ℚ := 127 / 10

/-- The `nt = 10/100` — the assumed 10 % regulation range. -/
def mv_tx_nt : ℚ := 10 / 100

/-- numpy `np.round(·, 2)`: round to 2 decimals, ties to even. -/
def round2 (q : ℚ) : ℚ :=
  let y : ℚ := q * 100
  let f : ℤ := ⌊y⌋
  let r : ℚ := y - f
  if r < 1/2 then (f : ℚ) / 100
  else if 1/2 < r then ((f + 1 : ℤ) : ℚ) / 100
  else if f % 2 = 0 then (f : ℚ) / 100 else ((f + 1 : ℤ) : ℚ) / 100

/-- The `kVAtraf = np.round((nt * float(kva1) / (1 + nt)), 2)` where `kva1`
is the value the source read from the row (`row["kvs_primary"]`). -/
def kVAtraf (kva1 : ℚ) : ℚ := round2 (mv_tx_nt * kva1 / (1 + mv_tx_nt))

/-- The "entry" jumper reactor of one phase (`Jumper_…_<ph>_E`);
`idx` is the literal bus phase index the source writes (`1`/`2`/`3`
for phases A/B/C). -/
def entry_jumper (r : MvTxRecord) (ph idx : String) : ReactorCmd :=
  { name := "Jumper_" ++ r.Substation_ID ++ "_" ++ ph ++ "_E"
    bus1 := "mv_f0_n" ++ r.Bus1 ++ "." ++ idx
    bus2 := "Jumper_" ++ r.Substation_ID ++ "_" ++ ph ++ ".2"
    phases := 1, X := 1/10000, R := 1/10000 }

/-- The "out" jumper reactor of one phase (`Jumper_…_<ph>_O`). -/
def exit_jumper (r : MvTxRecord) (ph idx : String) : ReactorCmd :=
  { name := "Jumper_" ++ r.Substation_ID ++ "_" ++ ph ++ "_O"
    bus1 := "Jumper_" ++ r.Substation_ID ++ "_" ++ ph ++ ".1"
    bus2 := "mv_f0_n" ++ r.Bus2 ++ "." ++ idx
    phases := 1, X := 1/10000, R := 1/10000 }

/-- The six jumper reactors, in source order: phase A entry/out, phase B
entry/out, phase C entry/out. -/
def reg_jumpers (r : MvTxRecord) : List DSSCmd :=
  [DSSCmd.reactor (entry_jumper r "A" "1"), DSSCmd.reactor (exit_jumper r "A" "1"),
   DSSCmd.reactor (entry_jumper r "B" "2"), DSSCmd.reactor (exit_jumper r "B" "2"),
   DSSCmd.reactor (entry_jumper r "C" "3"), DSSCmd.reactor (exit_jumper r "C" "3")]

/-- The per-phase two-winding single-phase regulator transformer. -/
def reg_tx (r : MvTxRecord) (ph : String) : TransformerCmd :=
  { name := r.Substation_ID ++ "_" ++ ph
    phases := 1, windings := 2
    buses := ["Jumper_" ++ r.Substation_ID ++ "_" ++ ph ++ ".1.0",
              "Jumper_" ++ r.Substation_ID ++ "_" ++ ph ++ ".1.2"]
    conns := []
    kVs := [mv_tx_reg_kv, mv_tx_reg_kv / 10]
    kVAs := [kVAtraf r.kvs_primary, kVAtraf r.kvs_primary]
    xhl := r.xhl, noloadloss := r.noloadloss, loadloss := r.loadloss
    maxtap := some 1, mintap := some (-1), tap := some 0
    numtaps := some (r.wdg1_numtaps - 1) }

/-- The per-phase regcontrol element. -/
def reg_ctrl (r : MvTxRecord) (ph : String) : RegControlCmd :=
  { name := "Reg_" ++ r.Substation_ID ++ "_" ++ ph
    transformer := r.Substation_ID ++ "_" ++ ph
    winding := 2
    bus := "Jumper_" ++ r.Substation_ID ++ "_" ++ ph ++ ".1"
    vreg := 100, band := 3
    ptratio_val := mv_tx_reg_kv * 10
    maxtapchange := 1 }

/-- The three per-phase regulator transformers, phases in order A, B, C. -/
def reg_transformers (r : MvTxRecord) : List DSSCmd :=
  (["A", "B", "C"]).map (fun ph => DSSCmd.transformer (reg_tx r ph))

/-- The three per-phase regcontrols, phases in order A, B, C. -/
def reg_controls (r : MvTxRecord) : List DSSCmd :=
  (["A", "B", "C"]).map (fun ph => DSSCmd.regcontrol (reg_ctrl r ph))

/-- The single three-winding split-phase transformer of the unequal-voltage
branch, given the translated primary phase suffix. -/
def mv_tx_split (r : MvTxRecord) (sfx : String) : TransformerCmd :=
  { name := r.Substation_ID
    buses := ["mv_f0_n" ++ r.Bus1 ++ "." ++ sfx,
              "mv_f0_n" ++ r.Bus2 ++ ".1.0",
              "mv_f0_n" ++ r.Bus2 ++ ".0.2"]
    phases := 1, windings := 3
    conns := ["Delta", "Wye", "Wye"]
    kVs := [r.kvs_primary, r.kvs_secondary, r.kvs_secondary]
    kVAs := [r.kvas_primary, r.kvas_secondary, r.kvas_secondary]
    xhl := r.xhl, noloadloss := r.noloadloss, loadloss := r.loadloss
    numtaps := none, tap := none, maxtap := none, mintap := none }

/-- Commands emitted by `mv_txs` for one `mvtx` row.  `none` models the
`KeyError` raised by `char_to_num[row['Conn_Type']]` on the unequal-voltage
path before anything is emitted for the row. -/
def mv_tx_record_emit (r : MvTxRecord) : Option (List DSSCmd) :=
  if r.kvs_primary ≠ r.kvs_secondary then
    (char_to_num r.Conn_Type).map (fun sfx => [DSSCmd.transformer (mv_tx_split r sfx)])
  else
    some (DSSCmd.directive "set maxcontroliter=100" ::
      (reg_jumpers r ++ reg_transformers r ++ reg_controls r))

/-- The whole `mv_txs` loop: concatenated per-row emissions; a row failure
stops the loop, keeping the commands already submitted. -/
def mv_txs : List MvTxRecord → (List DSSCmd × Option RunErr)
  | [] => ([], none)
  | r :: rest =>
    match mv_tx_record_emit r with
    | none => ([], some RunErr.keyError)
    | some cs =>
      let rec_rest := mv_txs rest
      (cs ++ rec_rest.1, rec_rest.2)

/-- Returns `true` for component-definition commands, `false` for plain engine
directives such as `set maxcontroliter=100`. -/
def isComponentDef : DSSCmd → Bool
  | DSSCmd.directive _ => false
  | _ => true

def isReactorP : DSSCmd → Bool
  | DSSCmd.reactor _ => true
  | _ => false

def isTransformerP : DSSCmd → Bool
  | DSSCmd.transformer _ => true
  | _ => false

def isRegControlP : DSSCmd → Bool
  | DSSCmd.regcontrol _ => true
  | _ => false

/-! ## `DSSDriver.lv_tx`: MV/LV transformers -/

/-- The MV/LV transformer command for one `lvtx` row at dataframe index
`index`; `none` models the `KeyError` of `char_to_num[row['Conn_Type']]`
on the two short-`Conn_Type` branches. -/
def lv_tx_record_emit (index : Nat) (row : LvTxRecord) : Option DSSCmd :=
  if row.Conn_Type.length = 3 then
    some (DSSCmd.transformer
      { name := "mv_f0_lv_" ++ row.Substation_ID
        phases := 3, windings := 2
        buses := ["mv_f0_n" ++ row.Bus1, "mv_f0_lv" ++ toString index ++ "_busbar"]
        conns := [row.Connection_Primary, row.Connection_Secondary]
        kVs := [row.kvs_primary, row.kvs_secondary]
        kVAs := [row.kvas_primary, row.kvas_secondary]
        xhl := row.xhl, noloadloss := row.noloadloss, loadloss := row.loadloss
        numtaps := some 4, tap := some row.wdg1_tap
        maxtap := some (1137/1000), mintap := some (1028/1000) })
  else if row.Conn_Type.length = 2 then
    (char_to_num row.Conn_Type).map (fun sfx => DSSCmd.transformer
      { name := "mv_f0_lv_" ++ row.Substation_ID
        phases := 1, windings := 3
        buses := ["mv_f0_n" ++ row.Bus1 ++ "." ++ sfx,
                  "mv_f0_lv" ++ toString index ++ "_busbar.1.0",
                  "mv_f0_lv" ++ toString index ++ "_busbar.0.2"]
        conns := ["Delta", "Wye", "Wye"]
        kVs := [22, 1/4, 1/4]
        kVAs := [row.kvas_primary, row.kvas_secondary, row.kvas_secondary]
        xhl := row.xhl, noloadloss := row.noloadloss, loadloss := row.loadloss
        numtaps := some 4, tap := some row.wdg1_tap
        maxtap := some (1137/1000), mintap := some (1028/1000) })
  else
    (char_to_num row.Conn_Type).map (fun sfx => DSSCmd.transformer
      { name := "mv_f0_lv_" ++ row.Substation_ID
        phases := 1, windings := 2
        buses := ["mv_f0_n" ++ row.Bus1 ++ "." ++ sfx,
                  "mv_f0_lv" ++ toString index ++ "_busbar.1"]
        conns := ["Wye", "Wye"]
        kVs := [row.kvs_primary, row.kvs_secondary]
        kVAs := [row.kvas_primary, row.kvas_secondary]
        xhl := row.xhl, noloadloss := row.noloadloss, loadloss := row.loadloss
        numtaps := some 4, tap := some row.wdg1_tap
        maxtap := some (1137/1000), mintap := some (1028/1000) })

/-- The whole `lv_tx` loop: one command and one Geo-Layer `DSSNAME`
annotation (`gis_data["MVLV_txs"]`) per row; a row failure stops the
loop. -/
def lv_tx : Nat → (Nat → Option String) → List LvTxRecord →
    (List DSSCmd × (Nat → Option String) × Option RunErr)
  | _, gis, [] => ([], gis, none)
  | i, gis, row :: rest =>
    match lv_tx_record_emit i row with
    | none => ([], gis, some RunErr.keyError)
    | some c =>
      let gis2 : Nat → Option String :=
        fun j => if j = i then some ("mv_f0_lv_" ++ row.Substation_ID) else gis j
      let rec_rest := lv_tx (i + 1) gis2 rest
      (c :: rec_rest.1, rec_rest.2)

/-! ## `DSSDriver.connections`: MV lines and their Geo-Layer annotations

For each `lines` row, unless `row["Element_Name"].lower() == "delete"`,
the source emits one line command, writes the generated `DSSNAME` into
`gis_data["MV_lines"]` at the row's dataframe index, then looks up the
matching line-code row and writes its `Ampacity1` (the first directional
ampacity, not the minimum) as the `Ampacity` annotation; an empty lookup
result raises `IndexError` (`.values[0]`), aborting the loop. -/

/-- Python's `str.lower()` (ASCII, as used on element names). -/
def str_lower (s : String) : String := String.mk (s.data.map Char.toLower)

/-- The `new line.…` command for one MV `lines` row. -/
def line_cmd (row : LineRecord) : LineCmd :=
  { name := "mv_f0_l" ++ toString row.Line_Number
    bus1 := "mv_f0_n" ++ row.Start_Node ++ "." ++ row.Start_Node_Phase
    bus2 := "mv_f0_n" ++ row.End_Node ++ "." ++ row.End_Node_Phase
    phases := row.Phases
    length := row.Length
    units := row.Units
    linecode := "lc_" ++ row.Linecode ++ "-" ++ toString row.Phases ++ "ph" }

/-- The `linecodes.loc[Linecode_ID == f"{row['Linecode']}-{row['Phases']}ph"]`,
first matching row. -/
def linecode_match (table : List LineCodeRecord) (row : LineRecord) :
    Option LineCodeRecord :=
  (table.filter
    (fun lc => lc.Linecode_ID == row.Linecode ++ "-" ++ toString row.Phases ++ "ph")).head?

/-- The `gis_data["MV_lines"].loc[index, "DSSNAME"] = n`. -/
def set_dssname (gis : Nat → GisEntry) (i : Nat) (n : String) : Nat → GisEntry :=
  fun j => if j = i then { gis i with dssname := some n } else gis j

/-- The `gis_data["MV_lines"].loc[index, "Ampacity"] = a`. -/
def set_ampacity (gis : Nat → GisEntry) (i : Nat) (a : ℚ) : Nat → GisEntry :=
  fun j => if j = i then { gis i with ampacity := some a } else gis j

/-- The `connections` loop over `lines` rows starting at dataframe index
`i`: emitted commands, final Geo-Layer state, and the error aborting the
loop, if any. -/
def connections (table : List LineCodeRecord) :
    Nat → (Nat → GisEntry) → List LineRecord →
    (List DSSCmd × (Nat → GisEntry) × Option RunErr)
  | _, gis, [] => ([], gis, none)
  | i, gis, row :: rest =>
    if str_lower row.Element_Name != "delete" then
      let gis1 := set_dssname gis i ("mv_f0_l" ++ toString row.Line_Number)
      match linecode_match table row with
      | none => ([DSSCmd.line (line_cmd row)], gis1, some RunErr.indexError)
      | some lc =>
        let gis2 := set_ampacity gis1 i lc.Ampacity1
        let rec_rest := connections table (i + 1) gis2 rest
        (DSSCmd.line (line_cmd row) :: rec_rest.1, rec_rest.2)
    else
      connections table (i + 1) gis rest

/-- Concrete records for the C6 and C10 witnesses. -/
def w6_lc : LineCodeRecord :=
  { Linecode_ID := "3c-3ph", Phases := 3
    r1 := 1, x1 := 2, b1 := 3, r0 := 4, b0 := 5, x0 := 6
    Units := "km", Ampacity1 := 500, Ampacity2 := 300 }

def w6_delete_row : LineRecord :=
  { Element_Name := "Delete", Line_Number := 7
    Start_Node := "1", End_Node := "2"
    Start_Node_Phase := "1.2.3", End_Node_Phase := "1.2.3"
    Phases := 3, Length := 1, Units := "km", Linecode := "3c" }

def w6_keep_row : LineRecord :=
  { Element_Name := "seg", Line_Number := 8
    Start_Node := "2", End_Node := "3"
    Start_Node_Phase := "1.2.3", End_Node_Phase := "1.2.3"
    Phases := 3, Length := 1, Units := "km", Linecode := "3c" }

def gis_init : Nat → GisEntry := fun _ => { dssname := none, ampacity := none }

/-! ## `DSSDriver.lv_load_mod`: load definitions and profile sampling

`house_data` / `com_data` are 3-dimensional arrays
(profile index × day of year × 48 half-hour multipliers); randomness is
modelled by an explicit stream of drawn indices.  A residential row
(`phases == 1`) binds the first drawn profile immediately; any other row
redraws from the commercial pool until the profile's peak is strictly
below `tx_cap / 2` (`while True … break`). -/

/-- A profile pool: profile index → day of year → 48 multipliers. -/
abbrev Pool := List (List (List ℚ))

/-- The `np.max` of a daily profile (`load_max` in the source). -/
def load_max : List ℚ → ℚ
  | [] => 0
  | x :: xs => xs.foldl max x

/-- The `pool[i, day, :]`; `none` models an out-of-range index. -/
def profileAt (pool : Pool) (i day : Nat) : Option (List ℚ) :=
  match pool.get? i with
  | none => none
  | some p => p.get? day

/-- Residential draw: one profile from the residential pool, bound
immediately, consuming exactly one index from the draw stream. -/
def sample_res (pool : Pool) (day : Nat) : List Nat → Option (List ℚ × List Nat)
  | [] => none
  | d :: ds => (profileAt pool d day).map (fun p => (p, ds))

/-- Commercial feasibility retry (`while True`): keep drawing until the
profile's peak is strictly below `cap / 2`; `none` when the modelled draw
stream is exhausted before the constraint holds (the source loop would
still be running). -/
def sample_com : Pool → Nat → ℚ → List Nat → Option (List ℚ × List Nat)
  | _, _, _, [] => none
  | pool, day, cap, d :: ds =>
    match profileAt pool d day with
    | none => none
    | some p => if load_max p < cap / 2 then some (p, ds) else sample_com pool day cap ds

/-- The `new load.…` command for one `lv_loads` row (identical fields on
both branches of the source). -/
def load_cmd (row : LoadRecord) : DSSCmd :=
  DSSCmd.load
    { name := row.load_name, phases := row.phases, bus1 := row.bus1
      kw := 1, conn := "wye", kv := row.kv, pf := row.pf, model := 1
      vminpu := 0, vmaxpu := 2, status := row.model }

/-- The `New Loadshape.Load_shape_res_<index> npts=48 minterval=30 Pmult=…`. -/
def res_shape_cmd (i : Nat) (p : List ℚ) : DSSCmd :=
  DSSCmd.loadshape
    { name := "Load_shape_res_" ++ toString i, npts := (24 * 60) / 30
      minterval := 30, pmult := p }

/-- The `New Loadshape.Load_shape_com_<index> npts=48 minterval=30 Pmult=…`. -/
def com_shape_cmd (i : Nat) (p : List ℚ) : DSSCmd :=
  DSSCmd.loadshape
    { name := "Load_shape_com_" ++ toString i, npts := (24 * 60) / 30
      minterval := 30, pmult := p }

/-- The per-load loop of `lv_load_mod` over `lv_loads` rows starting at
dataframe index `i`, threading the draw stream. -/
def lv_load_loop (pr pc : Pool) (day : Nat) :
    Nat → List Nat → List LoadRecord → (List DSSCmd × Option RunErr)
  | _, _, [] => ([], none)
  | i, ds, row :: rest =>
    if row.phases = 1 then
      match sample_res pr day ds with
      | none => ([load_cmd row], some RunErr.outOfDraws)
      | some (p, ds2) =>
        let rec_rest := lv_load_loop pr pc day (i + 1) ds2 rest
        (load_cmd row :: res_shape_cmd i p ::
          DSSCmd.setDaily ("load." ++ row.load_name) ("Load_shape_res_" ++ toString i) ::
          rec_rest.1, rec_rest.2)
    else
      match sample_com pc day row.tx_cap ds with
      | none => ([load_cmd row], some RunErr.outOfDraws)
      | some (p, ds2) =>
        let rec_rest := lv_load_loop pr pc day (i + 1) ds2 rest
        (load_cmd row :: com_shape_cmd i p ::
          DSSCmd.setDaily ("load." ++ row.load_name) ("Load_shape_com_" ++ toString i) ::
          rec_rest.1, rec_rest.2)

/-- The `lv_load_mod(selected_day = 0)`: the shared session day is the RNG
draw `dayDraw` when no explicit day is supplied, the explicit day
otherwise; returns the emitted commands, the error (if any) and the
selected day (the source's return value). -/
def lv_load_mod (pr pc : Pool) (loads : List LoadRecord)
    (selected_day dayDraw : Nat) (ds : List Nat) :
    List DSSCmd × Option RunErr × Nat :=
  let day := if selected_day = 0 then dayDraw else selected_day
  let res := lv_load_loop pr pc day 0 ds loads
  (res.1, res.2, day)

/-- Concrete pools and a 3-phase load for the C2 witness. -/
def w2_pc : Pool := [[[2]]]

def w2_row : LoadRecord :=
  { load_name := "c1", phases := 3, bus1 := "lvbus", kv := 22, pf := 1
    model := "1", tx_cap := 10 }

/-! ## The remaining stages and the orchestrator `build_network` -/

/-- The `basic_opendss_actions`: the `clear` and base-frequency directives. -/
def basic_opendss_actions : List DSSCmd :=
  [DSSCmd.directive "clear",
   DSSCmd.directive "Set DefaultBaseFrequency = 50"]

/-- The `voltage_source`: the base circuit and source-impedance commands. -/
def voltage_source : List DSSCmd :=
  [DSSCmd.directive
      "New circuit.circuit basekv=66 pu=1 angle=0 phases=3 R1=0.52824 X1=2.113 R0=0.59157 X0=1.7747",
   DSSCmd.directive
      "edit vsource.source bus1=sourcebus basekv=66 pu=1 angle=0 phases=3 R1=0.52824 X1=2.113 R0=0.59157 X0=1.7"]

/-- The primary MV transformer command of `mv_net_tx`. -/
def mv_net_tx_cmd (row : MvNetTxRecord) : DSSCmd :=
  DSSCmd.transformer
    { name := row.Substation_ID
      phases := 3, windings := 2
      buses := [row.Bus1, "mv_f0_n" ++ row.Bus2]
      conns := [row.Connection_Primary, row.Connection_Secondary]
      kVs := [row.kvs_primary, row.kvs_secondary]
      kVAs := [row.kvas_primary, row.kvas_secondary]
      xhl := row.xhl, noloadloss := row.noloadloss, loadloss := row.loadloss
      numtaps := none, tap := none, maxtap := none, mintap := none }

/-- The `DSSDriver.mv_net_tx`. -/
def mv_net_tx (rows : List MvNetTxRecord) : List DSSCmd := rows.map mv_net_tx_cmd

/-- The capacitor command of `DSSDriver.capacitors`. -/
def cap_cmd (row : CapRecord) : DSSCmd :=
  DSSCmd.capacitor
    { name := "mv_f0_l" ++ row.Element_ID
      bus1 := "mv_f0_n" ++ row.Bus1 ++ ".1.2.3"
      phases := row.phases, kvar := row.kvar, kV := row.kvs }

/-- The `DSSDriver.capacitors`. -/
def capacitors (rows : List CapRecord) : List DSSCmd := rows.map cap_cmd

/-- The LV line command of `DSSDriver.lv_nets` (bus suffix `.1.2.3` for
3-phase rows, `.1` otherwise). -/
def lv_net_cmd (row : LvLineRecord) : DSSCmd :=
  let bus_conn := if row.phases = 3 then ".1.2.3" else ".1"
  DSSCmd.line
    { name := row.line_name
      bus1 := row.bus1 ++ bus_conn, bus2 := row.bus2 ++ bus_conn
      phases := row.phases, length := row.length, units := row.units
      linecode := row.linecode }

/-- The `DSSDriver.lv_nets`. -/
def lv_nets (rows : List LvLineRecord) : List DSSCmd := rows.map lv_net_cmd

/-- The `get_date_and_season`'s season classification (the calendar date
string built with `datetime` is not modelled). -/
def get_season (day_of_year : Int) : String :=
  if 355 ≤ day_of_year ∨ day_of_year ≤ 78 then "Summer"
  else if 79 ≤ day_of_year ∧ day_of_year ≤ 170 then "Autumn"
  else if 171 ≤ day_of_year ∧ day_of_year ≤ 263 then "Winter"
  else "Spring"

/-- The `print_selected_date(self, selected_day)`: a method with one required
parameter, reporting the selected day's date/season. -/
def print_selected_date (selected_day : Nat) : String :=
  get_season selected_day

/-- Python positional-call semantics for a method whose signature requires
exactly one argument: any other argument count raises `TypeError`. -/
def invoke1 {α : Type} (f : Nat → α) : List Nat → Except RunErr α
  | [a] => Except.ok (f a)
  | _ => Except.error RunErr.typeError

/-- The `other_opendss_commands`: the legal-voltage-bases declaration and the
`calcv` (resolve bus connectivity) directive. -/
def other_opendss_commands : List DSSCmd :=
  [DSSCmd.directive "Set VoltageBases=[66.0, 22.0, 12.7 0.400, 0.2309]",
   DSSCmd.directive "calcv"]

/-- The named tables of one network workbook; `mvcaps` and `mvtx` are the
optional tables probed inside `try/except` in `build_network`. -/
structure NetworkTables where
  mv_net_txs : List MvNetTxRecord
  linecodes : List LineCodeRecord
  lines : List LineRecord
  mvcaps : Option (List CapRecord)
  mvtx : Option (List MvTxRecord)
  lvtx : List LvTxRecord
  lv_lines : List LvLineRecord
  lv_loads : List LoadRecord

/-- The `try: self.capacitors() except: pass` — an absent table emits
nothing. -/
def capacitors_stage : Option (List CapRecord) → List DSSCmd
  | none => []
  | some rows => capacitors rows

/-- The `try: self.mv_txs() except: pass` — an absent table or a mid-loop
failure is swallowed, keeping the commands already submitted. -/
def mv_txs_stage : Option (List MvTxRecord) → List DSSCmd
  | none => []
  | some rows => (mv_txs rows).1

/-- The `DSSDriver.build_network`: the stages in source order, accumulating
the submitted commands; the first unhandled error stops the run.  The
penultimate statement is `self.print_selected_date()` — a call with an
empty argument list. -/
def build_network (t : NetworkTables) (pr pc : Pool)
    (gisL : Nat → GisEntry) (gisT : Nat → Option String)
    (dayDraw : Nat) (ds : List Nat) : List DSSCmd × Option RunErr :=
  let c1 := basic_opendss_actions
  let c2 := voltage_source
  let c3 := mv_net_tx t.mv_net_txs
  let c4 := line_codes t.linecodes
  let conn := connections t.linecodes 0 gisL t.lines
  match conn.2.2 with
  | some e => (c1 ++ c2 ++ c3 ++ c4 ++ conn.1, some e)
  | none =>
    let c6 := capacitors_stage t.mvcaps
    let c7 := mv_txs_stage t.mvtx
    let ltx := lv_tx 0 gisT t.lvtx
    match ltx.2.2 with
    | some e => (c1 ++ c2 ++ c3 ++ c4 ++ conn.1 ++ c6 ++ c7 ++ ltx.1, some e)
    | none =>
      let c9 := lv_nets t.lv_lines
      let lm := lv_load_mod pr pc t.lv_loads 0 dayDraw ds
      match lm.2.1 with
      | some e =>
        (c1 ++ c2 ++ c3 ++ c4 ++ conn.1 ++ c6 ++ c7 ++ ltx.1 ++ c9 ++ lm.1, some e)
      | none =>
        match invoke1 print_selected_date [] with
        | Except.error e =>
          (c1 ++ c2 ++ c3 ++ c4 ++ conn.1 ++ c6 ++ c7 ++ ltx.1 ++ c9 ++ lm.1, some e)
        | Except.ok _ =>
          (c1 ++ c2 ++ c3 ++ c4 ++ conn.1 ++ c6 ++ c7 ++ ltx.1 ++ c9 ++ lm.1 ++
            other_opendss_commands, none)

/-- All tables empty: the smallest run on which every stage up to the load
stage succeeds. -/
def emptyTables : NetworkTables :=
  { mv_net_txs := [], linecodes := [], lines := [], mvcaps := none
    mvtx := none, lvtx := [], lv_lines := [], lv_loads := [] }

/-- A concrete equal-voltage record for the C4 witness. -/
def c4_row : MvTxRecord :=
  { Substation_ID := "SUB8_REG", Bus1 := "41", Bus2 := "42", Conn_Type := "RWB"
    kvs_primary := 127/10, kvs_secondary := 127/10
    kvas_primary := 500, kvas_secondary := 500
    xhl := 2, noloadloss := 1/5, loadloss := 1/2, wdg1_numtaps := 33 }

/-- A concrete equal-voltage record with a large rated capacity,
exhibiting the C3 divergence. -/
def c3_row : MvTxRecord :=
  { Substation_ID := "SUB9_REG", Bus1 := "51", Bus2 := "52", Conn_Type := "RWB"
    kvs_primary := 127/10, kvs_secondary := 127/10
    kvas_primary := 1000, kvas_secondary := 1000
    xhl := 2, noloadloss := 1/5, loadloss := 1/2, wdg1_numtaps := 33 }

/-- A concrete unequal-voltage record whose `Conn_Type` has length 3. -/
def c1_row : MvTxRecord :=
  { Substation_ID := "SUB7", Bus1 := "31", Bus2 := "32", Conn_Type := "RWB"
    kvs_primary := 22, kvs_secondary := 127/10
    kvas_primary := 300, kvas_secondary := 300
    xhl := 2, noloadloss := 1/5, loadloss := 1/2, wdg1_numtaps := 33 }

/-- A concrete unequal-voltage record with a 2-letter `Conn_Type`, for the
C1 witness. -/
def c1_wit_row : MvTxRecord :=
  { Substation_ID := "SUB6", Bus1 := "21", Bus2 := "22", Conn_Type := "RB"
    kvs_primary := 22, kvs_secondary := 127/10
    kvas_primary := 300, kvas_secondary := 300
    xhl := 2, noloadloss := 1/5, loadloss := 1/2, wdg1_numtaps := 33 }

/-! ## Lemmas and theorems -/

/-- C5: For every line-code record, the effective ampacity (`normamp`)
written into the emitted line-code definition equals the minimum of the two
directional ampacities of that record. -/
theorem linecode_normamp_min (rows : List LineCodeRecord) (c : DSSCmd)
    (hc : c ∈ line_codes rows) :
    ∃ row ∈ rows, c = DSSCmd.linecode (line_code_cmd row) ∧
      (line_code_cmd row).normamp = min row.Ampacity1 row.Ampacity2 := by
  rcases List.mem_map.mp hc with ⟨row, hrow, heq⟩
  exact ⟨row, hrow, heq.symm, rfl⟩

theorem linecode_normamp_min_witness :
    ∃ row ∈ [lc_witness_row],
      DSSCmd.linecode (line_code_cmd lc_witness_row) =
        DSSCmd.linecode (line_code_cmd row) ∧
      (line_code_cmd row).normamp = min row.Ampacity1 row.Ampacity2 :=
  linecode_normamp_min [lc_witness_row]
    (DSSCmd.linecode (line_code_cmd lc_witness_row)) (by simp [line_codes])

lemma charToNumKeys_eq : charToNumKeys = ["RWB", "RBW", "WRB", "WBR", "BRW", "BWR",
    "RB", "RW", "BR", "BW", "WR", "WB", "R", "B", "W"] := by rfl

/-- The dictionary keys are exactly the nonempty strings of at most three
pairwise-distinct letters from {R, W, B}. -/
lemma mem_charToNumKeys_iff (s : String) :
    s ∈ charToNumKeys ↔
      (s.data ≠ [] ∧ s.data.length ≤ 3 ∧ s.data.Nodup ∧
        ∀ c ∈ s.data, c = 'R' ∨ c = 'W' ∨ c = 'B') := by
  constructor
  · intro h
    rw [charToNumKeys_eq] at h
    fin_cases h <;> refine ⟨by decide, by decide, by decide, by decide⟩
  · rintro ⟨h1, h2, h3, h4⟩
    obtain ⟨data⟩ := s
    simp only [String.data] at h1 h2 h3 h4
    rw [charToNumKeys_eq]
    rcases data with _ | ⟨a, _ | ⟨b, _ | ⟨c, _ | ⟨d, rest⟩⟩⟩⟩
    · exact absurd rfl h1
    · have ha := h4 a (by simp)
      rcases ha with rfl | rfl | rfl <;> decide
    · have ha := h4 a (by simp)
      have hb := h4 b (by simp)
      rcases ha with rfl | rfl | rfl <;> rcases hb with rfl | rfl | rfl <;>
        first
        | decide
        | (exfalso; revert h3; decide)
    · have ha := h4 a (by simp)
      have hb := h4 b (by simp)
      have hc := h4 c (by simp)
      rcases ha with rfl | rfl | rfl <;> rcases hb with rfl | rfl | rfl <;>
        rcases hc with rfl | rfl | rfl <;>
        first
        | decide
        | (exfalso; revert h3; decide)
    · exfalso
      simp only [List.length_cons] at h2
      omega

lemma phaseDigits_eq (l : List Char)
    (h : ∀ c ∈ l, c = 'R' ∨ c = 'W' ∨ c = 'B') :
    phaseDigits l = some (l.map specDigit) := by
  induction l with
  | nil => rfl
  | cons a t ih =>
    have ha := h a (by simp)
    have ht := ih (fun c hc => h c (by simp [hc]))
    rcases ha with rfl | rfl | rfl <;>
      simp [phaseDigits, ht, phaseNum, specDigit]

/-- C7 (amended):  Phase-code translation fails (`KeyError`, modelled
as `none`) if and only if the string is *not* a permutation of 1–3
pairwise-distinct letters from {R, W, B} — in particular, a repeated
letter also fails, not just out-of-alphabet characters or bad lengths.
On every permutation of 1–3 distinct letters it succeeds and returns the
dot-separated digits under R↦1, W↦2, B↦3. -/
theorem char_to_num_domain_amended (s : String) :
    (char_to_num s = none ↔
      ¬ (s.data ≠ [] ∧ s.data.length ≤ 3 ∧ s.data.Nodup ∧
          ∀ c ∈ s.data, c = 'R' ∨ c = 'W' ∨ c = 'B')) ∧
    (s.data ≠ [] → s.data.length ≤ 3 → s.data.Nodup →
      (∀ c ∈ s.data, c = 'R' ∨ c = 'W' ∨ c = 'B') →
      char_to_num s =
        some (String.intercalate "." (s.data.map (fun c => toString (specDigit c))))) := by
  have hpos : ∀ (h1 : s.data ≠ []) (h2 : s.data.length ≤ 3) (h3 : s.data.Nodup)
      (h4 : ∀ c ∈ s.data, c = 'R' ∨ c = 'W' ∨ c = 'B'),
      char_to_num s =
        some (String.intercalate "." (s.data.map (fun c => toString (specDigit c)))) := by
    intro h1 h2 h3 h4
    have hmem : s ∈ charToNumKeys := (mem_charToNumKeys_iff s).mpr ⟨h1, h2, h3, h4⟩
    rw [char_to_num, if_pos hmem, charToNumVal, phaseDigits_eq s.data h4]
    simp [List.map_map, Function.comp_def]
  refine ⟨⟨fun hnone hP => ?_, fun hnP => ?_⟩, hpos⟩
  · rw [hpos hP.1 hP.2.1 hP.2.2.1 hP.2.2.2] at hnone
    exact Option.noConfusion hnone
  · by_cases hmem : s ∈ charToNumKeys
    · exact absurd ((mem_charToNumKeys_iff s).mp hmem) hnP
    · rw [char_to_num, if_neg hmem]

/-- C7 (counterexample): `"RR"` has length 2 and only characters from
{R, W, B}, yet translation fails — refuting the claim that failure occurs
*iff* a character is outside {R, W, B} or the length is 0 or > 3. -/
theorem char_to_num_repeated_counterexample :
    char_to_num "RR" = none ∧ "RR".data.length = 2 ∧
      ∀ c ∈ "RR".data, c = 'R' ∨ c = 'W' ∨ c = 'B' := by
  decide

/-- Witness: the amended C7 theorem applied at the concrete code `"RB"`. -/
theorem char_to_num_domain_amended_witness : char_to_num "RB" = some "1.3" := by
  have h := (char_to_num_domain_amended "RB").2 (by decide) (by decide) (by decide)
    (by decide)
  exact h.trans (by decide)

/-- Indices below the loop's starting index are never written. -/
lemma connections_gis_stable (table : List LineCodeRecord) (lines : List LineRecord) :
    ∀ (i0 : Nat) (gis0 : Nat → GisEntry) (j : Nat), j < i0 →
      (connections table i0 gis0 lines).2.1 j = gis0 j := by
  induction lines with
  | nil => intro i0 gis0 j _; rfl
  | cons row rest ih =>
    intro i0 gis0 j hj
    rw [connections]
    by_cases hdel : (str_lower row.Element_Name != "delete") = true
    · rw [if_pos hdel]
      cases hlc : linecode_match table row with
      | none =>
        simp [set_dssname, show j ≠ i0 from by omega]
      | some lc =>
        exact (ih (i0 + 1) _ j (by omega)).trans
          (by simp [set_dssname, set_ampacity, show j ≠ i0 from by omega])
    · rw [if_neg hdel]
      exact ih (i0 + 1) gis0 j (by omega)

/-- Full behaviour of the `connections` loop when every non-deleted row's
line-code resolves: no error, the emitted commands are exactly the
non-deleted rows in order, deleted rows leave their Geo-Layer entry
untouched, and each non-deleted row's entry gets its generated name and
the matching line-code's `Ampacity1`. -/
lemma connections_run_spec (table : List LineCodeRecord) (lines : List LineRecord) :
    ∀ (i0 : Nat) (gis0 : Nat → GisEntry),
      (∀ row ∈ lines, (str_lower row.Element_Name != "delete") = true →
        (linecode_match table row).isSome) →
      ((connections table i0 gis0 lines).2.2 = none ∧
        (connections table i0 gis0 lines).1 =
          (lines.filter (fun r => str_lower r.Element_Name != "delete")).map
            (fun r => DSSCmd.line (line_cmd r))) ∧
      (∀ (k : Nat) (hk : k < lines.length),
        (str_lower (lines.get ⟨k, hk⟩).Element_Name != "delete") = true →
          ∃ lc, linecode_match table (lines.get ⟨k, hk⟩) = some lc ∧
            (connections table i0 gis0 lines).2.1 (i0 + k) =
              { dssname := some ("mv_f0_l" ++ toString (lines.get ⟨k, hk⟩).Line_Number)
                ampacity := some lc.Ampacity1 }) ∧
      (∀ (k : Nat) (hk : k < lines.length),
        (str_lower (lines.get ⟨k, hk⟩).Element_Name != "delete") = false →
          (connections table i0 gis0 lines).2.1 (i0 + k) = gis0 (i0 + k)) := by
  induction lines with
  | nil =>
    intro i0 gis0 _
    refine ⟨⟨rfl, by simp [connections]⟩, ?_, ?_⟩ <;> (intro k hk; exact absurd hk (by simp))
  | cons row rest ih =>
    intro i0 gis0 hres
    have hres' : ∀ r ∈ rest, (str_lower r.Element_Name != "delete") = true →
        (linecode_match table r).isSome :=
      fun r hr => hres r (List.mem_cons_of_mem _ hr)
    by_cases hdel : (str_lower row.Element_Name != "delete") = true
    · obtain ⟨lc, hlc⟩ := Option.isSome_iff_exists.mp
        (hres row (List.mem_cons_self _ _) hdel)
      have hstep : connections table i0 gis0 (row :: rest) =
          (DSSCmd.line (line_cmd row) ::
            (connections table (i0 + 1)
              (set_ampacity (set_dssname gis0 i0 ("mv_f0_l" ++ toString row.Line_Number))
                i0 lc.Ampacity1) rest).1,
           (connections table (i0 + 1)
              (set_ampacity (set_dssname gis0 i0 ("mv_f0_l" ++ toString row.Line_Number))
                i0 lc.Ampacity1) rest).2) := by
        rw [connections, if_pos hdel, hlc]
      obtain ⟨⟨iherr, ihcmds⟩, ihpos, ihdel⟩ :=
        ih (i0 + 1)
          (set_ampacity (set_dssname gis0 i0 ("mv_f0_l" ++ toString row.Line_Number))
            i0 lc.Ampacity1) hres'
      refine ⟨⟨by rw [hstep]; exact iherr, ?_⟩, ?_, ?_⟩
      · rw [hstep]
        simp only [List.filter_cons, hdel, if_true, List.map_cons]
        exact congrArg _ ihcmds
      · intro k hk hkdel
        cases k with
        | zero =>
          refine ⟨lc, hlc, ?_⟩
          rw [hstep]
          show (connections table (i0 + 1) _ rest).2.1 (i0 + 0) = _
          rw [connections_gis_stable table rest (i0 + 1) _ (i0 + 0) (by omega)]
          simp [set_ampacity, set_dssname]
        | succ k' =>
          have hk' : k' < rest.length := by
            simpa using Nat.lt_of_succ_lt_succ hk
          obtain ⟨lc', hlc', hval⟩ := ihpos k' hk' (by simpa using hkdel)
          refine ⟨lc', by simpa using hlc', ?_⟩
          rw [hstep]
          show (connections table (i0 + 1) _ rest).2.1 (i0 + (k' + 1)) = _
          rw [show i0 + (k' + 1) = (i0 + 1) + k' from by omega]
          simpa using hval
      · intro k hk hkdel
        cases k with
        | zero =>
          exact absurd hkdel (by simp_all)
        | succ k' =>
          have hk' : k' < rest.length := by
            simpa using Nat.lt_of_succ_lt_succ hk
          have hval := ihdel k' hk' (by simpa using hkdel)
          rw [hstep]
          show (connections table (i0 + 1) _ rest).2.1 (i0 + (k' + 1)) = gis0 (i0 + (k' + 1))
          rw [show i0 + (k' + 1) = (i0 + 1) + k' from by omega, hval]
          simp [set_ampacity, set_dssname, show (i0 + 1) + k' ≠ i0 from by omega]
    · have hdelf : (str_lower row.Element_Name != "delete") = false := by
        simpa using hdel
      have hstep : connections table i0 gis0 (row :: rest) =
          connections table (i0 + 1) gis0 rest := by
        rw [connections, if_neg hdel]
      obtain ⟨⟨iherr, ihcmds⟩, ihpos, ihdel⟩ := ih (i0 + 1) gis0 hres'
      refine ⟨⟨by rw [hstep]; exact iherr, ?_⟩, ?_, ?_⟩
      · rw [hstep, ihcmds]
        simp [List.filter_cons, hdelf]
      · intro k hk hkdel
        cases k with
        | zero => exact absurd hkdel (by simp_all)
        | succ k' =>
          have hk' : k' < rest.length := by
            simpa using Nat.lt_of_succ_lt_succ hk
          obtain ⟨lc', hlc', hval⟩ := ihpos k' hk' (by simpa using hkdel)
          refine ⟨lc', by simpa using hlc', ?_⟩
          rw [hstep, show i0 + (k' + 1) = (i0 + 1) + k' from by omega]
          simpa using hval
      · intro k hk hkdel
        cases k with
        | zero =>
          rw [hstep]
          exact connections_gis_stable table rest (i0 + 1) gis0 (i0 + 0) (by omega)
        | succ k' =>
          have hk' : k' < rest.length := by
            simpa using Nat.lt_of_succ_lt_succ hk
          have hval := ihdel k' hk' (by simpa using hkdel)
          rw [hstep, show i0 + (k' + 1) = (i0 + 1) + k' from by omega]
          exact hval

/-- C6:  A line record whose `Element_Name` is `"delete"` under
case-insensitive comparison is never emitted and its Geo-Layer entry is
left unchanged; every other record is emitted (the command stream is
exactly the non-deleted rows, in order) and annotated. -/
theorem delete_lines_skipped (table : List LineCodeRecord) (lines : List LineRecord)
    (i0 : Nat) (gis0 : Nat → GisEntry)
    (hres : ∀ row ∈ lines, (str_lower row.Element_Name != "delete") = true →
      (linecode_match table row).isSome) :
    (connections table i0 gis0 lines).1 =
      (lines.filter (fun r => str_lower r.Element_Name != "delete")).map
        (fun r => DSSCmd.line (line_cmd r)) ∧
    (∀ (k : Nat) (hk : k < lines.length),
      str_lower (lines.get ⟨k, hk⟩).Element_Name = "delete" →
        (connections table i0 gis0 lines).2.1 (i0 + k) = gis0 (i0 + k)) ∧
    (∀ (k : Nat) (hk : k < lines.length),
      str_lower (lines.get ⟨k, hk⟩).Element_Name ≠ "delete" →
        ∃ lc, linecode_match table (lines.get ⟨k, hk⟩) = some lc ∧
          (connections table i0 gis0 lines).2.1 (i0 + k) =
            { dssname := some ("mv_f0_l" ++ toString (lines.get ⟨k, hk⟩).Line_Number)
              ampacity := some lc.Ampacity1 }) := by
  obtain ⟨⟨_, hcmds⟩, hpos, hdel⟩ := connections_run_spec table lines i0 gis0 hres
  refine ⟨hcmds, fun k hk hd => hdel k hk (by simpa using hd),
    fun k hk hd => hpos k hk (by simpa using hd)⟩

/-- C10:  The Geo-Layer ampacity annotation of every emitted MV line is
the matching line-code's *first* directional ampacity `Ampacity1` alone;
whenever `Ampacity2 < Ampacity1` it therefore differs from the effective
ampacity (`normamp = min`) emitted in the line-code command. -/
theorem gis_ampacity_first_directional (table : List LineCodeRecord)
    (lines : List LineRecord) (i0 : Nat) (gis0 : Nat → GisEntry)
    (hres : ∀ row ∈ lines, (str_lower row.Element_Name != "delete") = true →
      (linecode_match table row).isSome)
    (k : Nat) (hk : k < lines.length)
    (hkeep : str_lower (lines.get ⟨k, hk⟩).Element_Name ≠ "delete") :
    ∃ lc, linecode_match table (lines.get ⟨k, hk⟩) = some lc ∧
      (connections table i0 gis0 lines).2.1 (i0 + k) =
        { dssname := some ("mv_f0_l" ++ toString (lines.get ⟨k, hk⟩).Line_Number)
          ampacity := some lc.Ampacity1 } ∧
      (lc.Ampacity2 < lc.Ampacity1 → lc.Ampacity1 ≠ (line_code_cmd lc).normamp) := by
  obtain ⟨⟨_, _⟩, hpos, _⟩ := connections_run_spec table lines i0 gis0 hres
  obtain ⟨lc, hlc, hval⟩ := hpos k hk (by simpa using hkeep)
  refine ⟨lc, hlc, hval, fun hlt => ?_⟩
  show lc.Ampacity1 ≠ min lc.Ampacity1 lc.Ampacity2
  rw [min_eq_right hlt.le]
  exact (ne_of_gt hlt)

/-- Witness: C6 at a two-row table (one `"Delete"`-flagged row, one kept
row). -/
theorem delete_lines_skipped_witness :
    (connections [w6_lc] 0 gis_init [w6_delete_row, w6_keep_row]).1 =
      [DSSCmd.line (line_cmd w6_keep_row)] ∧
    (connections [w6_lc] 0 gis_init [w6_delete_row, w6_keep_row]).2.1 0 = gis_init 0 := by
  have h := delete_lines_skipped [w6_lc] [w6_delete_row, w6_keep_row] 0 gis_init (by decide)
  exact ⟨h.1.trans (by decide), h.2.1 0 (by decide) (by decide)⟩

/-- Witness: C10 at the kept row, whose line-code has
`Ampacity2 = 300 < 500 = Ampacity1`. -/
theorem gis_ampacity_first_directional_witness :
    ∃ lc, linecode_match [w6_lc] w6_keep_row = some lc ∧
      (connections [w6_lc] 0 gis_init [w6_delete_row, w6_keep_row]).2.1 1 =
        { dssname := some "mv_f0_l8", ampacity := some lc.Ampacity1 } ∧
      (lc.Ampacity2 < lc.Ampacity1 → lc.Ampacity1 ≠ (line_code_cmd lc).normamp) := by
  obtain ⟨lc, hlc, hval, hne⟩ := gis_ampacity_first_directional [w6_lc]
    [w6_delete_row, w6_keep_row] 0 gis_init (by decide) 1 (by decide) (by decide)
  exact ⟨lc, hlc, hval, hne⟩

/-- Whenever the commercial retry loop binds a profile, that profile's
peak is strictly below half the capacity ceiling. -/
lemma sample_com_feasible (pool : Pool) (day : Nat) (cap : ℚ) :
    ∀ (ds : List Nat) (p : List ℚ) (rest : List Nat),
      sample_com pool day cap ds = some (p, rest) → load_max p < cap / 2 := by
  intro ds
  induction ds with
  | nil => intro p rest h; exact Option.noConfusion h
  | cons d ds ih =>
    intro p rest h
    rw [sample_com] at h
    split at h
    · exact Option.noConfusion h
    · split at h
      · rename_i hlt
        simp only [Option.some.injEq, Prod.mk.injEq] at h
        obtain ⟨rfl, rfl⟩ := h
        exact hlt
      · exact ih p rest h

/-- C2: Every profile bound by the commercial retry loop satisfies
`peak < tx_cap / 2` (and the 3-phase branch of the per-load loop binds
exactly that profile); a residential (`phases = 1`) load binds the first
drawn profile immediately, with no constraint check and consuming exactly
one draw. -/
theorem load_profile_binding_feasibility :
    (∀ (pool : Pool) (day : Nat) (cap : ℚ) (ds : List Nat) (p : List ℚ) (rest : List Nat),
      sample_com pool day cap ds = some (p, rest) → load_max p < cap / 2) ∧
    (∀ (pr pc : Pool) (day i : Nat) (ds' : List Nat) (d : Nat) (row : LoadRecord)
        (rest : List LoadRecord) (p : List ℚ),
      row.phases = 1 → profileAt pr d day = some p →
      lv_load_loop pr pc day i (d :: ds') (row :: rest) =
        (load_cmd row :: res_shape_cmd i p ::
          DSSCmd.setDaily ("load." ++ row.load_name) ("Load_shape_res_" ++ toString i) ::
          (lv_load_loop pr pc day (i + 1) ds' rest).1,
         (lv_load_loop pr pc day (i + 1) ds' rest).2)) ∧
    (∀ (pr pc : Pool) (day i : Nat) (ds : List Nat) (row : LoadRecord)
        (rest : List LoadRecord) (p : List ℚ) (ds2 : List Nat),
      row.phases = 3 → sample_com pc day row.tx_cap ds = some (p, ds2) →
      load_max p < row.tx_cap / 2 ∧
      lv_load_loop pr pc day i ds (row :: rest) =
        (load_cmd row :: com_shape_cmd i p ::
          DSSCmd.setDaily ("load." ++ row.load_name) ("Load_shape_com_" ++ toString i) ::
          (lv_load_loop pr pc day (i + 1) ds2 rest).1,
         (lv_load_loop pr pc day (i + 1) ds2 rest).2)) := by
  refine ⟨sample_com_feasible, ?_, ?_⟩
  · intro pr pc day i ds' d row rest p h1 hp
    rw [lv_load_loop, if_pos h1]
    have : sample_res pr day (d :: ds') = some (p, ds') := by
      rw [sample_res, hp, Option.map_some']
    rw [this]
  · intro pr pc day i ds row rest p ds2 h3 hs
    refine ⟨sample_com_feasible pc day row.tx_cap ds p ds2 hs, ?_⟩
    rw [lv_load_loop, if_neg (by omega), hs]

/-- Witness: C2's commercial branch at a one-profile pool whose peak 2 is
below `10 / 2`. -/
theorem load_profile_binding_feasibility_witness :
    load_max [2] < w2_row.tx_cap / 2 ∧
    lv_load_loop [] w2_pc 0 0 [0] [w2_row] =
      (load_cmd w2_row :: com_shape_cmd 0 [2] ::
        DSSCmd.setDaily ("load." ++ w2_row.load_name) ("Load_shape_com_" ++ toString 0) ::
        (lv_load_loop [] w2_pc 0 (0 + 1) [] []).1,
       (lv_load_loop [] w2_pc 0 (0 + 1) [] []).2) := by
  refine load_profile_binding_feasibility.2.2 [] w2_pc 0 0 [0] w2_row [] [2] [] rfl ?_
  norm_num [sample_com, profileAt, w2_pc, w2_row, load_max]

/-! ### Stage outputs never contain the final `calcv` directive -/

lemma not_directive_mem_map {α : Type} (l : List α) (f : α → DSSCmd)
    (hf : ∀ a s, f a ≠ DSSCmd.directive s) (s : String) :
    DSSCmd.directive s ∉ l.map f := by
  intro hmem
  rcases List.mem_map.mp hmem with ⟨a, _, ha⟩
  exact hf a s ha

lemma connections_no_directive (table : List LineCodeRecord) (lines : List LineRecord) :
    ∀ (i0 : Nat) (gis0 : Nat → GisEntry) (s : String),
      DSSCmd.directive s ∉ (connections table i0 gis0 lines).1 := by
  induction lines with
  | nil => intro i0 gis0 s h; simp [connections] at h
  | cons row rest ih =>
    intro i0 gis0 s h
    rw [connections] at h
    by_cases hdel : (str_lower row.Element_Name != "delete") = true
    · rw [if_pos hdel] at h
      split at h
      · simp at h
      · rcases List.mem_cons.mp h with hc | hc
        · exact DSSCmd.noConfusion hc
        · exact ih (i0 + 1) _ s hc
    · rw [if_neg hdel] at h
      exact ih (i0 + 1) gis0 s h

lemma mv_tx_record_emit_no_calcv (r : MvTxRecord) (cs : List DSSCmd)
    (hemit : mv_tx_record_emit r = some cs) :
    DSSCmd.directive "calcv" ∉ cs := by
  rw [mv_tx_record_emit] at hemit
  split at hemit
  · rcases Option.map_eq_some'.mp hemit with ⟨sfx, -, hcs⟩
    intro h
    rw [← hcs] at h
    simp at h
  · intro h
    rw [← Option.some_inj.mp hemit] at h
    rcases List.mem_cons.mp h with hc | hc
    · exact absurd (DSSCmd.directive.inj hc) (by decide)
    · simp [reg_jumpers, reg_transformers, reg_controls] at hc

lemma mv_txs_no_calcv (rows : List MvTxRecord) :
    DSSCmd.directive "calcv" ∉ (mv_txs rows).1 := by
  induction rows with
  | nil => simp [mv_txs]
  | cons r rest ih =>
    intro h
    rw [mv_txs] at h
    split at h
    · simp at h
    · rename_i cs hemit
      rcases List.mem_append.mp h with hc | hc
      · exact mv_tx_record_emit_no_calcv r cs hemit hc
      · exact ih hc

lemma lv_tx_record_emit_is_transformer (i : Nat) (row : LvTxRecord) (c : DSSCmd)
    (h : lv_tx_record_emit i row = some c) : ∃ tc, c = DSSCmd.transformer tc := by
  rw [lv_tx_record_emit] at h
  split at h
  · exact ⟨_, (Option.some_inj.mp h).symm⟩
  · split at h
    · rcases Option.map_eq_some'.mp h with ⟨sfx, -, hc⟩
      exact ⟨_, hc.symm⟩
    · rcases Option.map_eq_some'.mp h with ⟨sfx, -, hc⟩
      exact ⟨_, hc.symm⟩

lemma lv_tx_no_directive (rows : List LvTxRecord) :
    ∀ (i : Nat) (gis : Nat → Option String) (s : String),
      DSSCmd.directive s ∉ (lv_tx i gis rows).1 := by
  induction rows with
  | nil => intro i gis s h; simp [lv_tx] at h
  | cons row rest ih =>
    intro i gis s h
    rw [lv_tx] at h
    split at h
    · simp at h
    · rename_i c hemit
      rcases List.mem_cons.mp h with hc | hc
      · rcases lv_tx_record_emit_is_transformer i row c hemit with ⟨tc, rfl⟩
        exact DSSCmd.noConfusion hc
      · exact ih (i + 1) _ s hc

lemma lv_load_loop_no_directive (pr pc : Pool) (day : Nat) (loads : List LoadRecord) :
    ∀ (i : Nat) (ds : List Nat) (s : String),
      DSSCmd.directive s ∉ (lv_load_loop pr pc day i ds loads).1 := by
  induction loads with
  | nil => intro i ds s h; simp [lv_load_loop] at h
  | cons row rest ih =>
    intro i ds s h
    rw [lv_load_loop] at h
    by_cases h1 : row.phases = 1
    · rw [if_pos h1] at h
      split at h
      · simp [load_cmd] at h
      · rcases List.mem_cons.mp h with hc | hc
        · exact DSSCmd.noConfusion hc
        · rcases List.mem_cons.mp hc with hc' | hc'
          · exact DSSCmd.noConfusion hc'
          · rcases List.mem_cons.mp hc' with hc'' | hc''
            · exact DSSCmd.noConfusion hc''
            · exact ih (i + 1) _ s hc''
    · rw [if_neg h1] at h
      split at h
      · simp [load_cmd] at h
      · rcases List.mem_cons.mp h with hc | hc
        · exact DSSCmd.noConfusion hc
        · rcases List.mem_cons.mp hc with hc' | hc'
          · exact DSSCmd.noConfusion hc'
          · rcases List.mem_cons.mp hc' with hc'' | hc''
            · exact DSSCmd.noConfusion hc''
            · exact ih (i + 1) _ s hc''

lemma calcv_not_in_prefix (t : NetworkTables) (pr pc : Pool)
    (gisL : Nat → GisEntry) (gisT : Nat → Option String) (dayDraw : Nat) (ds : List Nat) :
    DSSCmd.directive "calcv" ∉ basic_opendss_actions ∧
    DSSCmd.directive "calcv" ∉ voltage_source ∧
    DSSCmd.directive "calcv" ∉ mv_net_tx t.mv_net_txs ∧
    DSSCmd.directive "calcv" ∉ line_codes t.linecodes ∧
    DSSCmd.directive "calcv" ∉ (connections t.linecodes 0 gisL t.lines).1 ∧
    DSSCmd.directive "calcv" ∉ capacitors_stage t.mvcaps ∧
    DSSCmd.directive "calcv" ∉ mv_txs_stage t.mvtx ∧
    DSSCmd.directive "calcv" ∉ (lv_tx 0 gisT t.lvtx).1 ∧
    DSSCmd.directive "calcv" ∉ lv_nets t.lv_lines ∧
    DSSCmd.directive "calcv" ∉ (lv_load_mod pr pc t.lv_loads 0 dayDraw ds).1 := by
  refine ⟨by decide, by decide, ?_, ?_, connections_no_directive _ _ _ _ _, ?_, ?_,
    lv_tx_no_directive _ _ _ _, ?_, ?_⟩
  · exact not_directive_mem_map _ _ (fun a s => by simp [mv_net_tx_cmd]) _
  · exact not_directive_mem_map _ _ (fun a s => by simp [line_codes]) _
  · cases t.mvcaps with
    | none => simp [capacitors_stage]
    | some rows =>
      exact not_directive_mem_map _ _ (fun a s => by simp [cap_cmd]) _
  · cases t.mvtx with
    | none => simp [mv_txs_stage]
    | some rows => exact mv_txs_no_calcv rows
  · exact not_directive_mem_map _ _ (fun a s => by simp [lv_net_cmd]) _
  · exact lv_load_loop_no_directive pr pc _ t.lv_loads 0 ds _

/-- Helper: `build_network` always ends in an error, and every emitted command
comes from one of the ten stages before the global directives. -/
lemma build_network_result (t : NetworkTables) (pr pc : Pool)
    (gisL : Nat → GisEntry) (gisT : Nat → Option String) (dayDraw : Nat) (ds : List Nat) :
    ((build_network t pr pc gisL gisT dayDraw ds).2).isSome ∧
    ∀ c ∈ (build_network t pr pc gisL gisT dayDraw ds).1,
      c ∈ basic_opendss_actions ∨ c ∈ voltage_source ∨
      c ∈ mv_net_tx t.mv_net_txs ∨ c ∈ line_codes t.linecodes ∨
      c ∈ (connections t.linecodes 0 gisL t.lines).1 ∨
      c ∈ capacitors_stage t.mvcaps ∨ c ∈ mv_txs_stage t.mvtx ∨
      c ∈ (lv_tx 0 gisT t.lvtx).1 ∨ c ∈ lv_nets t.lv_lines ∨
      c ∈ (lv_load_mod pr pc t.lv_loads 0 dayDraw ds).1 := by
  simp only [build_network]
  rcases hc1 : (connections t.linecodes 0 gisL t.lines).2.2 with _ | e1
  case some =>
    simp only [hc1]
    refine ⟨rfl, fun c hc => ?_⟩
    simp only [List.mem_append] at hc
    tauto
  case none =>
    simp only [hc1]
    rcases hc2 : (lv_tx 0 gisT t.lvtx).2.2 with _ | e2
    case some =>
      simp only [hc2]
      refine ⟨rfl, fun c hc => ?_⟩
      simp only [List.mem_append] at hc
      tauto
    case none =>
      simp only [hc2]
      rcases hc3 : (lv_load_mod pr pc t.lv_loads 0 dayDraw ds).2.1 with _ | e3
      case some =>
        simp only [hc3]
        refine ⟨rfl, fun c hc => ?_⟩
        simp only [List.mem_append] at hc
        tauto
      case none =>
        simp only [hc3, invoke1]
        refine ⟨rfl, fun c hc => ?_⟩
        simp only [List.mem_append] at hc
        tauto

/-- C9:  `build_network` calls `print_selected_date` with no argument
although the method requires `selected_day` (the day returned by
`lv_load_mod` is discarded), so every run ends in an error and the global
directives stage — containing the final `calcv` — is unreachable. -/
theorem build_network_never_completes (t : NetworkTables) (pr pc : Pool)
    (gisL : Nat → GisEntry) (gisT : Nat → Option String) (dayDraw : Nat) (ds : List Nat) :
    ((build_network t pr pc gisL gisT dayDraw ds).2).isSome ∧
    DSSCmd.directive "calcv" ∉ (build_network t pr pc gisL gisT dayDraw ds).1 ∧
    invoke1 print_selected_date ([] : List Nat) = Except.error RunErr.typeError := by
  obtain ⟨n1, n2, n3, n4, n5, n6, n7, n8, n9, n10⟩ :=
    calcv_not_in_prefix t pr pc gisL gisT dayDraw ds
  obtain ⟨hsome, hmem⟩ := build_network_result t pr pc gisL gisT dayDraw ds
  refine ⟨hsome, fun hc => ?_, rfl⟩
  rcases hmem _ hc with h | h | h | h | h | h | h | h | h | h <;> tauto

/-- C8 (code bug):  Even on a run where every stage succeeds, the
orchestrator stops at `print_selected_date()` with a `TypeError` (missing
required `selected_day`) after the load stage: the emitted stream is the
stages in the fixed order up to the loads, and the final global
directives (`Set VoltageBases…`, `calcv`) are never emitted. -/
theorem build_network_stops_before_final_directives :
    (build_network emptyTables [] [] gis_init (fun _ => none) 0 []).2 =
      some RunErr.typeError ∧
    (build_network emptyTables [] [] gis_init (fun _ => none) 0 []).1 =
      basic_opendss_actions ++ voltage_source ∧
    DSSCmd.directive "calcv" ∉
      (build_network emptyTables [] [] gis_init (fun _ => none) 0 []).1 ∧
    DSSCmd.directive "Set VoltageBases=[66.0, 22.0, 12.7 0.400, 0.2309]" ∉
      (build_network emptyTables [] [] gis_init (fun _ => none) 0 []).1 := by
  refine ⟨rfl, by decide, by decide, by decide⟩

/-! ## Claims about the transformer topology selector (C1, C3, C4) -/

/-- C4: For every equal-voltage `mvtx` record the regulator assembly
is emitted: exactly 12 logical component definitions (6 jumper reactors,
3 two-winding single-phase transformers, 3 regcontrols; for each phase A,
B, C one entry jumper, one exit jumper, one transformer and one control),
and never a standard (three-winding) transformer. -/
theorem regulator_assembly_twelve_components (r : MvTxRecord)
    (h : r.kvs_primary = r.kvs_secondary) :
    ∃ cs, mv_tx_record_emit r = some cs ∧
      (cs.filter isComponentDef).length = 12 ∧
      cs.countP isReactorP = 6 ∧
      cs.countP isTransformerP = 3 ∧
      cs.countP isRegControlP = 3 ∧
      (DSSCmd.reactor (entry_jumper r "A" "1") ∈ cs ∧
        DSSCmd.reactor (exit_jumper r "A" "1") ∈ cs ∧
        DSSCmd.transformer (reg_tx r "A") ∈ cs ∧
        DSSCmd.regcontrol (reg_ctrl r "A") ∈ cs) ∧
      (DSSCmd.reactor (entry_jumper r "B" "2") ∈ cs ∧
        DSSCmd.reactor (exit_jumper r "B" "2") ∈ cs ∧
        DSSCmd.transformer (reg_tx r "B") ∈ cs ∧
        DSSCmd.regcontrol (reg_ctrl r "B") ∈ cs) ∧
      (DSSCmd.reactor (entry_jumper r "C" "3") ∈ cs ∧
        DSSCmd.reactor (exit_jumper r "C" "3") ∈ cs ∧
        DSSCmd.transformer (reg_tx r "C") ∈ cs ∧
        DSSCmd.regcontrol (reg_ctrl r "C") ∈ cs) ∧
      (∀ tc, DSSCmd.transformer tc ∈ cs → tc.windings = 2 ∧ tc.phases = 1) := by
  refine ⟨DSSCmd.directive "set maxcontroliter=100" ::
    (reg_jumpers r ++ reg_transformers r ++ reg_controls r), ?_, ?_, ?_, ?_, ?_, ?_, ?_, ?_, ?_⟩
  · rw [mv_tx_record_emit, if_neg (not_ne_iff.mpr h)]
  · simp [reg_jumpers, reg_transformers, reg_controls, isComponentDef, List.filter]
  · simp [reg_jumpers, reg_transformers, reg_controls, isReactorP, List.countP_cons]
  · simp [reg_jumpers, reg_transformers, reg_controls, isTransformerP, List.countP_cons]
  · simp [reg_jumpers, reg_transformers, reg_controls, isRegControlP, List.countP_cons]
  · refine ⟨?_, ?_, ?_, ?_⟩ <;> simp [reg_jumpers, reg_transformers, reg_controls]
  · refine ⟨?_, ?_, ?_, ?_⟩ <;> simp [reg_jumpers, reg_transformers, reg_controls]
  · refine ⟨?_, ?_, ?_, ?_⟩ <;> simp [reg_jumpers, reg_transformers, reg_controls]
  · intro tc htc
    simp [reg_jumpers, reg_transformers, reg_controls] at htc
    rcases htc with rfl | rfl | rfl <;> exact ⟨rfl, rfl⟩

/-- Witness: C4 at the concrete equal-voltage record `c4_row`. -/
theorem regulator_assembly_twelve_components_witness :
    ∃ cs, mv_tx_record_emit c4_row = some cs ∧
      (cs.filter isComponentDef).length = 12 ∧
      cs.countP isReactorP = 6 ∧
      cs.countP isTransformerP = 3 ∧
      cs.countP isRegControlP = 3 ∧
      (DSSCmd.reactor (entry_jumper c4_row "A" "1") ∈ cs ∧
        DSSCmd.reactor (exit_jumper c4_row "A" "1") ∈ cs ∧
        DSSCmd.transformer (reg_tx c4_row "A") ∈ cs ∧
        DSSCmd.regcontrol (reg_ctrl c4_row "A") ∈ cs) ∧
      (DSSCmd.reactor (entry_jumper c4_row "B" "2") ∈ cs ∧
        DSSCmd.reactor (exit_jumper c4_row "B" "2") ∈ cs ∧
        DSSCmd.transformer (reg_tx c4_row "B") ∈ cs ∧
        DSSCmd.regcontrol (reg_ctrl c4_row "B") ∈ cs) ∧
      (DSSCmd.reactor (entry_jumper c4_row "C" "3") ∈ cs ∧
        DSSCmd.reactor (exit_jumper c4_row "C" "3") ∈ cs ∧
        DSSCmd.transformer (reg_tx c4_row "C") ∈ cs ∧
        DSSCmd.regcontrol (reg_ctrl c4_row "C") ∈ cs) ∧
      (∀ tc, DSSCmd.transformer tc ∈ cs → tc.windings = 2 ∧ tc.phases = 1) :=
  regulator_assembly_twelve_components c4_row rfl

/-- C3 (code bug): The per-phase regulator transformer capacity is
computed from the record's primary rated *voltage* (`kvs_primary`, the
value the source binds to `kva1`), not its primary rated *capacity*
(`kvas_primary`): at `c3_row` (12.7 kV, 1000 kVA) every emitted per-phase
transformer carries `kVA = 1.15 = round2(0.1·12.7/1.1)`, whereas the
claimed formula over the capacity gives `round2(0.1·1000/1.1) = 90.91`. -/
theorem reg_kva_uses_voltage_bug :
    c3_row.kvs_primary = c3_row.kvs_secondary ∧
    (∃ cs, mv_tx_record_emit c3_row = some cs ∧
      ∀ tc, DSSCmd.transformer tc ∈ cs → tc.kVAs = [23/20, 23/20]) ∧
    kVAtraf c3_row.kvs_primary = 23/20 ∧
    round2 (mv_tx_nt * c3_row.kvas_primary / (1 + mv_tx_nt)) = 9091/100 ∧
    (23/20 : ℚ) ≠ 9091/100 := by
  have hkva : kVAtraf c3_row.kvs_primary = 23/20 := by
    norm_num [kVAtraf, round2, mv_tx_nt, c3_row]
  refine ⟨rfl, ⟨DSSCmd.directive "set maxcontroliter=100" ::
      (reg_jumpers c3_row ++ reg_transformers c3_row ++ reg_controls c3_row),
      by rw [mv_tx_record_emit, if_neg (not_ne_iff.mpr
        (show c3_row.kvs_primary = c3_row.kvs_secondary from rfl))], ?_⟩,
      hkva, ?_, by norm_num⟩
  · intro tc htc
    simp [reg_jumpers, reg_transformers, reg_controls] at htc
    rcases htc with rfl | rfl | rfl <;> simp [reg_tx, hkva]
  · norm_num [round2, mv_tx_nt, c3_row]

/-- C1 (counterexample):  An `mvtx` record with unequal rated voltages
and a *3-letter* `Conn_Type` is emitted by `mv_txs` as the three-winding
split-phase Delta/Wye/Wye transformer (`windings = 3`, `phases = 1`), not
as the two-winding 3-phase transformer the claim requires for PhaseCode
length 3. -/
theorem mv_unequal_len3_split_counterexample :
    c1_row.Conn_Type.length = 3 ∧
    c1_row.kvs_primary ≠ c1_row.kvs_secondary ∧
    mv_tx_record_emit c1_row = some [DSSCmd.transformer (mv_tx_split c1_row "1.2.3")] ∧
    (mv_tx_split c1_row "1.2.3").windings = 3 ∧
    ¬ ((mv_tx_split c1_row "1.2.3").windings = 2 ∧ (mv_tx_split c1_row "1.2.3").phases = 3) := by
  have hne : c1_row.kvs_primary ≠ c1_row.kvs_secondary := by norm_num [c1_row]
  refine ⟨by decide, hne, ?_, rfl, by decide⟩
  rw [mv_tx_record_emit, if_pos hne]
  have : char_to_num c1_row.Conn_Type = some "1.2.3" := by decide
  rw [this, Option.map_some']

/-- C1 (amended):  Topology selection is split across the two
emitters: `mv_txs` chooses on voltage equality alone (equal ⇒ regulator
assembly, unequal ⇒ three-winding split-phase Delta/Wye/Wye regardless of
the `Conn_Type` length), while `lv_tx` chooses on `Conn_Type` length
alone with no voltage comparison (3 ⇒ two-winding 3-phase, 2 ⇒
three-winding split-phase Delta/Wye/Wye, otherwise ⇒ two-winding
single-phase); in each case exactly one topology variant is emitted per
record. -/
theorem topology_selection_amended :
    (∀ (r : MvTxRecord) (cs : List DSSCmd), r.kvs_primary ≠ r.kvs_secondary →
      mv_tx_record_emit r = some cs →
      ∃ tc, cs = [DSSCmd.transformer tc] ∧ tc.windings = 3 ∧ tc.phases = 1 ∧
        tc.conns = ["Delta", "Wye", "Wye"]) ∧
    (∀ r : MvTxRecord, r.kvs_primary = r.kvs_secondary →
      mv_tx_record_emit r = some (DSSCmd.directive "set maxcontroliter=100" ::
        (reg_jumpers r ++ reg_transformers r ++ reg_controls r))) ∧
    (∀ (i : Nat) (r : LvTxRecord) (c : DSSCmd), lv_tx_record_emit i r = some c →
      ∃ tc, c = DSSCmd.transformer tc ∧
        (r.Conn_Type.length = 3 → tc.phases = 3 ∧ tc.windings = 2) ∧
        (r.Conn_Type.length = 2 → tc.phases = 1 ∧ tc.windings = 3 ∧
          tc.conns = ["Delta", "Wye", "Wye"]) ∧
        (r.Conn_Type.length ≠ 3 → r.Conn_Type.length ≠ 2 →
          tc.phases = 1 ∧ tc.windings = 2 ∧ tc.conns = ["Wye", "Wye"])) := by
  refine ⟨fun r cs hne hemit => ?_, fun r heq => ?_, fun i r c hemit => ?_⟩
  · rw [mv_tx_record_emit, if_pos hne] at hemit
    rcases Option.map_eq_some'.mp hemit with ⟨sfx, _, hcs⟩
    exact ⟨mv_tx_split r sfx, hcs.symm, rfl, rfl, rfl⟩
  · rw [mv_tx_record_emit, if_neg (not_ne_iff.mpr heq)]
  · rw [lv_tx_record_emit] at hemit
    by_cases h3 : r.Conn_Type.length = 3
    · rw [if_pos h3] at hemit
      refine ⟨_, (Option.some_inj.mp hemit).symm, fun _ => ⟨rfl, rfl⟩,
        fun h2 => absurd h3 (by omega), fun hn3 _ => absurd h3 hn3⟩
    · rw [if_neg h3] at hemit
      by_cases h2 : r.Conn_Type.length = 2
      · rw [if_pos h2] at hemit
        rcases Option.map_eq_some'.mp hemit with ⟨sfx, _, hc⟩
        exact ⟨_, hc.symm, fun hl3 => absurd hl3 h3, fun _ => ⟨rfl, rfl, rfl⟩,
          fun _ hn2 => absurd h2 hn2⟩
      · rw [if_neg h2] at hemit
        rcases Option.map_eq_some'.mp hemit with ⟨sfx, _, hc⟩
        exact ⟨_, hc.symm, fun hl3 => absurd hl3 h3, fun hl2 => absurd hl2 h2,
          fun _ _ => ⟨rfl, rfl, rfl⟩⟩

/-- Witness: the amended C1 theorem applied at the concrete unequal-voltage
record `c1_wit_row`. -/
theorem topology_selection_amended_witness :
    ∃ tc, ([DSSCmd.transformer (mv_tx_split c1_wit_row "1.3")] : List DSSCmd) =
        [DSSCmd.transformer tc] ∧ tc.windings = 3 ∧ tc.phases = 1 ∧
      tc.conns = ["Delta", "Wye", "Wye"] := by
  refine topology_selection_amended.1 c1_wit_row _ (by norm_num [c1_wit_row]) ?_
  rw [mv_tx_record_emit, if_pos (show c1_wit_row.kvs_primary ≠ c1_wit_row.kvs_secondary
    from by norm_num [c1_wit_row])]
  have : char_to_num c1_wit_row.Conn_Type = some "1.3" := by decide
  rw [this, Option.map_some']
